import Mathlib

/-!
Verification of the Amber Vulkan execution-context core
(src/vulkan/device.cc, src/vulkan/command.cc) against its design
specification.  The C++ is shallowly embedded: structs become Lean
structures, feature switches become Lean matches, stateful methods become
functions from state to state that also report the underlying Vulkan calls
they issued.
-/

namespace Amber

/-- The Feature enumeration of src/feature.h, as used by device.cc. The last
four members are amber-internal toggles with no corresponding field in
VkPhysicalDeviceFeatures; device.cc skips them in both switches. -/
inductive Feature where
  | kRobustBufferAccess
  | kFullDrawIndexUint32
  | kImageCubeArray
  | kIndependentBlend
  | kGeometryShader
  | kTessellationShader
  | kSampleRateShading
  | kDualSrcBlend
  | kLogicOp
  | kMultiDrawIndirect
  | kDrawIndirectFirstInstance
  | kDepthClamp
  | kDepthBiasClamp
  | kFillModeNonSolid
  | kDepthBounds
  | kWideLines
  | kLargePoints
  | kAlphaToOne
  | kMultiViewport
  | kSamplerAnisotropy
  | kTextureCompressionETC2
  | kTextureCompressionASTC_LDR
  | kTextureCompressionBC
  | kOcclusionQueryPrecise
  | kPipelineStatisticsQuery
  | kVertexPipelineStoresAndAtomics
  | kFragmentStoresAndAtomics
  | kShaderTessellationAndGeometryPointSize
  | kShaderImageGatherExtended
  | kShaderStorageImageExtendedFormats
  | kShaderStorageImageMultisample
  | kShaderStorageImageReadWithoutFormat
  | kShaderStorageImageWriteWithoutFormat
  | kShaderUniformBufferArrayDynamicIndexing
  | kShaderSampledImageArrayDynamicIndexing
  | kShaderStorageBufferArrayDynamicIndexing
  | kShaderStorageImageArrayDynamicIndexing
  | kShaderClipDistance
  | kShaderCullDistance
  | kShaderFloat64
  | kShaderInt64
  | kShaderInt16
  | kShaderResourceResidency
  | kShaderResourceMinLod
  | kSparseBinding
  | kSparseResidencyBuffer
  | kSparseResidencyImage2D
  | kSparseResidencyImage3D
  | kSparseResidency2Samples
  | kSparseResidency4Samples
  | kSparseResidency8Samples
  | kSparseResidency16Samples
  | kSparseResidencyAliased
  | kVariableMultisampleRate
  | kInheritedQueries
  | kFramebuffer
  | kDepthStencil
  | kFenceTimeout
  | kUnknown
deriving DecidableEq, Repr, Inhabited

/-- VkPhysicalDeviceFeatures: one boolean toggle per physical-device feature.
VkPhysicalDeviceFeatures() value-initializes every member to VK_FALSE, modelled
by the false defaults. -/
structure VkPhysicalDeviceFeatures where
  robustBufferAccess : Bool := false
  fullDrawIndexUint32 : Bool := false
  imageCubeArray : Bool := false
  independentBlend : Bool := false
  geometryShader : Bool := false
  tessellationShader : Bool := false
  sampleRateShading : Bool := false
  dualSrcBlend : Bool := false
  logicOp : Bool := false
  multiDrawIndirect : Bool := false
  drawIndirectFirstInstance : Bool := false
  depthClamp : Bool := false
  depthBiasClamp : Bool := false
  fillModeNonSolid : Bool := false
  depthBounds : Bool := false
  wideLines : Bool := false
  largePoints : Bool := false
  alphaToOne : Bool := false
  multiViewport : Bool := false
  samplerAnisotropy : Bool := false
  textureCompressionETC2 : Bool := false
  textureCompressionASTC_LDR : Bool := false
  textureCompressionBC : Bool := false
  occlusionQueryPrecise : Bool := false
  pipelineStatisticsQuery : Bool := false
  vertexPipelineStoresAndAtomics : Bool := false
  fragmentStoresAndAtomics : Bool := false
  shaderTessellationAndGeometryPointSize : Bool := false
  shaderImageGatherExtended : Bool := false
  shaderStorageImageExtendedFormats : Bool := false
  shaderStorageImageMultisample : Bool := false
  shaderStorageImageReadWithoutFormat : Bool := false
  shaderStorageImageWriteWithoutFormat : Bool := false
  shaderUniformBufferArrayDynamicIndexing : Bool := false
  shaderSampledImageArrayDynamicIndexing : Bool := false
  shaderStorageBufferArrayDynamicIndexing : Bool := false
  shaderStorageImageArrayDynamicIndexing : Bool := false
  shaderClipDistance : Bool := false
  shaderCullDistance : Bool := false
  shaderFloat64 : Bool := false
  shaderInt64 : Bool := false
  shaderInt16 : Bool := false
  shaderResourceResidency : Bool := false
  shaderResourceMinLod : Bool := false
  sparseBinding : Bool := false
  sparseResidencyBuffer : Bool := false
  sparseResidencyImage2D : Bool := false
  sparseResidencyImage3D : Bool := false
  sparseResidency2Samples : Bool := false
  sparseResidency4Samples : Bool := false
  sparseResidency8Samples : Bool := false
  sparseResidency16Samples : Bool := false
  sparseResidencyAliased : Bool := false
  variableMultisampleRate : Bool := false
  inheritedQueries : Bool := false
deriving DecidableEq, Repr, Inhabited

/-- One arm of the RequestedFeatures switch in device.cc: enable the struct
field named by a single required feature; the four amber-internal features
enable nothing. -/
def setFeature (r : VkPhysicalDeviceFeatures) (f : Feature) : VkPhysicalDeviceFeatures :=
  match f with
  | .kRobustBufferAccess => { r with robustBufferAccess := true }
  | .kFullDrawIndexUint32 => { r with fullDrawIndexUint32 := true }
  | .kImageCubeArray => { r with imageCubeArray := true }
  | .kIndependentBlend => { r with independentBlend := true }
  | .kGeometryShader => { r with geometryShader := true }
  | .kTessellationShader => { r with tessellationShader := true }
  | .kSampleRateShading => { r with sampleRateShading := true }
  | .kDualSrcBlend => { r with dualSrcBlend := true }
  | .kLogicOp => { r with logicOp := true }
  | .kMultiDrawIndirect => { r with multiDrawIndirect := true }
  | .kDrawIndirectFirstInstance => { r with drawIndirectFirstInstance := true }
  | .kDepthClamp => { r with depthClamp := true }
  | .kDepthBiasClamp => { r with depthBiasClamp := true }
  | .kFillModeNonSolid => { r with fillModeNonSolid := true }
  | .kDepthBounds => { r with depthBounds := true }
  | .kWideLines => { r with wideLines := true }
  | .kLargePoints => { r with largePoints := true }
  | .kAlphaToOne => { r with alphaToOne := true }
  | .kMultiViewport => { r with multiViewport := true }
  | .kSamplerAnisotropy => { r with samplerAnisotropy := true }
  | .kTextureCompressionETC2 => { r with textureCompressionETC2 := true }
  | .kTextureCompressionASTC_LDR => { r with textureCompressionASTC_LDR := true }
  | .kTextureCompressionBC => { r with textureCompressionBC := true }
  | .kOcclusionQueryPrecise => { r with occlusionQueryPrecise := true }
  | .kPipelineStatisticsQuery => { r with pipelineStatisticsQuery := true }
  | .kVertexPipelineStoresAndAtomics => { r with vertexPipelineStoresAndAtomics := true }
  | .kFragmentStoresAndAtomics => { r with fragmentStoresAndAtomics := true }
  | .kShaderTessellationAndGeometryPointSize => { r with shaderTessellationAndGeometryPointSize := true }
  | .kShaderImageGatherExtended => { r with shaderImageGatherExtended := true }
  | .kShaderStorageImageExtendedFormats => { r with shaderStorageImageExtendedFormats := true }
  | .kShaderStorageImageMultisample => { r with shaderStorageImageMultisample := true }
  | .kShaderStorageImageReadWithoutFormat => { r with shaderStorageImageReadWithoutFormat := true }
  | .kShaderStorageImageWriteWithoutFormat => { r with shaderStorageImageWriteWithoutFormat := true }
  | .kShaderUniformBufferArrayDynamicIndexing => { r with shaderUniformBufferArrayDynamicIndexing := true }
  | .kShaderSampledImageArrayDynamicIndexing => { r with shaderSampledImageArrayDynamicIndexing := true }
  | .kShaderStorageBufferArrayDynamicIndexing => { r with shaderStorageBufferArrayDynamicIndexing := true }
  | .kShaderStorageImageArrayDynamicIndexing => { r with shaderStorageImageArrayDynamicIndexing := true }
  | .kShaderClipDistance => { r with shaderClipDistance := true }
  | .kShaderCullDistance => { r with shaderCullDistance := true }
  | .kShaderFloat64 => { r with shaderFloat64 := true }
  | .kShaderInt64 => { r with shaderInt64 := true }
  | .kShaderInt16 => { r with shaderInt16 := true }
  | .kShaderResourceResidency => { r with shaderResourceResidency := true }
  | .kShaderResourceMinLod => { r with shaderResourceMinLod := true }
  | .kSparseBinding => { r with sparseBinding := true }
  | .kSparseResidencyBuffer => { r with sparseResidencyBuffer := true }
  | .kSparseResidencyImage2D => { r with sparseResidencyImage2D := true }
  | .kSparseResidencyImage3D => { r with sparseResidencyImage3D := true }
  | .kSparseResidency2Samples => { r with sparseResidency2Samples := true }
  | .kSparseResidency4Samples => { r with sparseResidency4Samples := true }
  | .kSparseResidency8Samples => { r with sparseResidency8Samples := true }
  | .kSparseResidency16Samples => { r with sparseResidency16Samples := true }
  | .kSparseResidencyAliased => { r with sparseResidencyAliased := true }
  | .kVariableMultisampleRate => { r with variableMultisampleRate := true }
  | .kInheritedQueries => { r with inheritedQueries := true }
  | .kFramebuffer | .kDepthStencil | .kFenceTimeout | .kUnknown => r

/-- RequestedFeatures (device.cc): build the enabled-feature struct for
vkCreateDevice by starting from the zero struct and enabling the field of each
required feature in turn. -/
def RequestedFeatures (required_features : List Feature) : VkPhysicalDeviceFeatures :=
  required_features.foldl setFeature {}

/-- One arm of the AreAllRequiredFeaturesSupported switch in device.cc: a
single required feature passes iff its field in the available struct is not
VK_FALSE; the four amber-internal features always pass (the switch skips them). -/
def featureSupported (available_features : VkPhysicalDeviceFeatures) (f : Feature) : Bool :=
  match f with
  | .kRobustBufferAccess => available_features.robustBufferAccess
  | .kFullDrawIndexUint32 => available_features.fullDrawIndexUint32
  | .kImageCubeArray => available_features.imageCubeArray
  | .kIndependentBlend => available_features.independentBlend
  | .kGeometryShader => available_features.geometryShader
  | .kTessellationShader => available_features.tessellationShader
  | .kSampleRateShading => available_features.sampleRateShading
  | .kDualSrcBlend => available_features.dualSrcBlend
  | .kLogicOp => available_features.logicOp
  | .kMultiDrawIndirect => available_features.multiDrawIndirect
  | .kDrawIndirectFirstInstance => available_features.drawIndirectFirstInstance
  | .kDepthClamp => available_features.depthClamp
  | .kDepthBiasClamp => available_features.depthBiasClamp
  | .kFillModeNonSolid => available_features.fillModeNonSolid
  | .kDepthBounds => available_features.depthBounds
  | .kWideLines => available_features.wideLines
  | .kLargePoints => available_features.largePoints
  | .kAlphaToOne => available_features.alphaToOne
  | .kMultiViewport => available_features.multiViewport
  | .kSamplerAnisotropy => available_features.samplerAnisotropy
  | .kTextureCompressionETC2 => available_features.textureCompressionETC2
  | .kTextureCompressionASTC_LDR => available_features.textureCompressionASTC_LDR
  | .kTextureCompressionBC => available_features.textureCompressionBC
  | .kOcclusionQueryPrecise => available_features.occlusionQueryPrecise
  | .kPipelineStatisticsQuery => available_features.pipelineStatisticsQuery
  | .kVertexPipelineStoresAndAtomics => available_features.vertexPipelineStoresAndAtomics
  | .kFragmentStoresAndAtomics => available_features.fragmentStoresAndAtomics
  | .kShaderTessellationAndGeometryPointSize => available_features.shaderTessellationAndGeometryPointSize
  | .kShaderImageGatherExtended => available_features.shaderImageGatherExtended
  | .kShaderStorageImageExtendedFormats => available_features.shaderStorageImageExtendedFormats
  | .kShaderStorageImageMultisample => available_features.shaderStorageImageMultisample
  | .kShaderStorageImageReadWithoutFormat => available_features.shaderStorageImageReadWithoutFormat
  | .kShaderStorageImageWriteWithoutFormat => available_features.shaderStorageImageWriteWithoutFormat
  | .kShaderUniformBufferArrayDynamicIndexing => available_features.shaderUniformBufferArrayDynamicIndexing
  | .kShaderSampledImageArrayDynamicIndexing => available_features.shaderSampledImageArrayDynamicIndexing
  | .kShaderStorageBufferArrayDynamicIndexing => available_features.shaderStorageBufferArrayDynamicIndexing
  | .kShaderStorageImageArrayDynamicIndexing => available_features.shaderStorageImageArrayDynamicIndexing
  | .kShaderClipDistance => available_features.shaderClipDistance
  | .kShaderCullDistance => available_features.shaderCullDistance
  | .kShaderFloat64 => available_features.shaderFloat64
  | .kShaderInt64 => available_features.shaderInt64
  | .kShaderInt16 => available_features.shaderInt16
  | .kShaderResourceResidency => available_features.shaderResourceResidency
  | .kShaderResourceMinLod => available_features.shaderResourceMinLod
  | .kSparseBinding => available_features.sparseBinding
  | .kSparseResidencyBuffer => available_features.sparseResidencyBuffer
  | .kSparseResidencyImage2D => available_features.sparseResidencyImage2D
  | .kSparseResidencyImage3D => available_features.sparseResidencyImage3D
  | .kSparseResidency2Samples => available_features.sparseResidency2Samples
  | .kSparseResidency4Samples => available_features.sparseResidency4Samples
  | .kSparseResidency8Samples => available_features.sparseResidency8Samples
  | .kSparseResidency16Samples => available_features.sparseResidency16Samples
  | .kSparseResidencyAliased => available_features.sparseResidencyAliased
  | .kVariableMultisampleRate => available_features.variableMultisampleRate
  | .kInheritedQueries => available_features.inheritedQueries
  | .kFramebuffer | .kDepthStencil | .kFenceTimeout | .kUnknown => true

/-- AreAllRequiredFeaturesSupported (device.cc): true when the required list
is empty, otherwise the loop returns false at the first required feature whose
field is VK_FALSE and true if none is. -/
def AreAllRequiredFeaturesSupported (available_features : VkPhysicalDeviceFeatures)
    (required_features : List Feature) : Bool :=
  if required_features.isEmpty then true
  else required_features.all (featureSupported available_features)

/-- The four Feature members that have no VkPhysicalDeviceFeatures field. -/
def isSpecialFeature (f : Feature) : Bool :=
  match f with
  | .kFramebuffer | .kDepthStencil | .kFenceTimeout | .kUnknown => true
  | _ => false

/-- AreAllExtensionsSupported (device.cc): trivially true for an empty
required list; otherwise build the set of required extension names, erase
every available name from it, and succeed iff nothing is left. -/
def AreAllExtensionsSupported (available_extensions required_extensions : List String) : Bool :=
  if required_extensions.isEmpty then true
  else (required_extensions.filter (fun e => !(available_extensions.contains e))).isEmpty

/-- VK_QUEUE_GRAPHICS_BIT of the VkQueueFlagBits enumeration. -/
def VK_QUEUE_GRAPHICS_BIT : Nat := 1

/-- VK_QUEUE_COMPUTE_BIT of the VkQueueFlagBits enumeration. -/
def VK_QUEUE_COMPUTE_BIT : Nat := 2

/-- The queueFlags bitmask of one VkQueueFamilyProperties entry. -/
structure VkQueueFamilyProperties where
  queueFlags : Nat
deriving DecidableEq, Repr, Inhabited

/-- The test Device::ChooseQueueFamilyIndex applies to one queue family:
its flags intersect VK_QUEUE_GRAPHICS_BIT | VK_QUEUE_COMPUTE_BIT. -/
def hasGraphicsOrCompute (p : VkQueueFamilyProperties) : Bool :=
  (p.queueFlags &&& (VK_QUEUE_GRAPHICS_BIT ||| VK_QUEUE_COMPUTE_BIT)) != 0

/-- The scan loop of Device::ChooseQueueFamilyIndex, carrying the index of
the head of the remaining list: the first family whose flags advertise
graphics or compute wins. -/
def chooseQueueFamilyLoop : Nat -> List VkQueueFamilyProperties -> Option Nat
  | _, [] => none
  | i, p :: rest =>
    if hasGraphicsOrCompute p then some i else chooseQueueFamilyLoop (i + 1) rest

/-- Device::ChooseQueueFamilyIndex (device.cc): return the index of the
first queue family supporting graphics or compute (the source stores it in
queue_family_index_ and returns true), or none when no family qualifies
(the source returns false). -/
def ChooseQueueFamilyIndex (properties : List VkQueueFamilyProperties) : Option Nat :=
  chooseQueueFamilyLoop 0 properties

/-- One enumerated physical-device candidate: its advertised feature struct
(vkGetPhysicalDeviceFeatures), device extensions
(Device::GetAvailableExtensions) and queue-family properties
(vkGetPhysicalDeviceQueueFamilyProperties). -/
structure PhysicalDeviceInfo where
  features : VkPhysicalDeviceFeatures := {}
  extensions : List String := []
  queueFamilies : List VkQueueFamilyProperties := []
deriving DecidableEq, Repr, Inhabited

/-- The error message Device::ChoosePhysicalDevice returns when enumeration
exhausts without a suitable candidate. -/
def noSuitableDeviceMsg : String := "Vulkan::No physical device supports Vulkan"

/-- The candidate loop of Device::ChoosePhysicalDevice, carrying the index
of the head of the remaining list: a candidate failing the feature check is
skipped, then one failing the extension check, then one with no
graphics-or-compute queue family; the first survivor is returned with its
chosen queue-family index. -/
def choosePhysicalDeviceLoop (required_features : List Feature)
    (required_extensions : List String) :
    Nat -> List PhysicalDeviceInfo -> Except String (Nat × Nat)
  | _, [] => .error noSuitableDeviceMsg
  | i, d :: rest =>
    if !AreAllRequiredFeaturesSupported d.features required_features then
      choosePhysicalDeviceLoop required_features required_extensions (i + 1) rest
    else if !AreAllExtensionsSupported d.extensions required_extensions then
      choosePhysicalDeviceLoop required_features required_extensions (i + 1) rest
    else
      match ChooseQueueFamilyIndex d.queueFamilies with
      | some q => .ok (i, q)
      | none => choosePhysicalDeviceLoop required_features required_extensions (i + 1) rest

/-- Device::ChoosePhysicalDevice (device.cc) over an already enumerated
candidate list: ok (i, q) models storing physical_devices[i] into
physical_device_ and q into queue_family_index_; the error is the
no-suitable-device failure. -/
def ChoosePhysicalDevice (devices : List PhysicalDeviceInfo)
    (required_features : List Feature) (required_extensions : List String) :
    Except String (Nat × Nat) :=
  choosePhysicalDeviceLoop required_features required_extensions 0 devices

/-- The three filters of Device::ChoosePhysicalDevice combined: a candidate
is selectable iff it supports the required features, the required
extensions, and has some graphics-or-compute queue family. -/
def devicePasses (required_features : List Feature) (required_extensions : List String)
    (d : PhysicalDeviceInfo) : Bool :=
  AreAllRequiredFeaturesSupported d.features required_features &&
  AreAllExtensionsSupported d.extensions required_extensions &&
  (ChooseQueueFamilyIndex d.queueFamilies).isSome

/-- The VkDeviceQueueCreateInfo that Device::CreateDevice fills in:
one queue from the chosen family, priority 1.0 (modelled as a rational). -/
structure VkDeviceQueueCreateInfo where
  queueFamilyIndex : Nat
  queueCount : Nat
  pQueuePriorities : List Rat
deriving DecidableEq, Repr

/-- The VkDeviceCreateInfo that Device::CreateDevice passes to
vkCreateDevice. -/
structure VkDeviceCreateInfo where
  pQueueCreateInfos : List VkDeviceQueueCreateInfo
  queueCreateInfoCount : Nat
  pEnabledFeatures : VkPhysicalDeviceFeatures
  enabledExtensionCount : Nat
  ppEnabledExtensionNames : List String
deriving DecidableEq, Repr

/-- The creation request Device::CreateDevice (device.cc) builds: a single
queue at priority 1.0 from queue_family_index_, the RequestedFeatures
struct, and the required extension list verbatim. -/
def CreateDeviceInfo (queue_family_index : Nat) (required_features : List Feature)
    (required_extensions : List String) : VkDeviceCreateInfo :=
  { pQueueCreateInfos :=
      [{ queueFamilyIndex := queue_family_index, queueCount := 1,
         pQueuePriorities := [1] }],
    queueCreateInfoCount := 1,
    pEnabledFeatures := RequestedFeatures required_features,
    enabledExtensionCount := required_extensions.length,
    ppEnabledExtensionNames := required_extensions }

/-- amber::Result: default construction is success, construction from a
message is failure carrying that message. -/
structure Result where
  err : Option String := none
deriving DecidableEq, Repr

/-- Result::IsSuccess. -/
def Result.IsSuccess (r : Result) : Bool := r.err.isNone

/-- A failing amber::Result with the given message. -/
def Result.fail (msg : String) : Result := { err := some msg }

/-- The missing-layer set Device::AreAllValidationLayersSupported computes:
the std set of required layer names with every available layer name erased,
i.e. the distinct required names absent from the available list (std set
iteration order only affects message ordering). -/
def missingLayers (required_layers available_layers : List String) : List String :=
  (required_layers.filter (fun l => !(available_layers.contains l))).dedup

/-- The message Device::AreAllValidationLayersSupported builds from the
missing-layer set. -/
def missingLayersMsg (missing : List String) : String :=
  "Vulkan: missing validation layers:\n\t\t" ++
    missing.foldl (fun acc l => acc ++ l ++ ",\n\t\t") ""

/-- Device::AreAllValidationLayersSupported (device.cc), generalized over
the required layer array (kRequiredValidationLayers in the source) and
taking an already enumerated available-layer list: success iff the
missing-layer set is empty, otherwise a failure whose message lists every
missing layer. -/
def AreAllValidationLayersSupported (required_layers available_layers : List String) :
    Result :=
  let missing := missingLayers required_layers available_layers
  if missing.isEmpty then {}
  else Result.fail (missingLayersMsg missing)

/-- kRequiredValidationLayers (device.cc, non-Android branch). -/
def kRequiredValidationLayers : List String := ["VK_LAYER_LUNARG_standard_validation"]

/-- VkResult outcomes relevant to command.cc: VK_SUCCESS, VK_TIMEOUT, or
any other failure code. -/
inductive VkResult where
  | success
  | timeout
  | otherError
deriving DecidableEq, Repr

/-- CommandBufferState (command.h, as used by command.cc). -/
inductive CommandBufferState where
  | kInitial
  | kRecording
  | kExecutable
deriving DecidableEq, Repr

/-- The Vulkan entry points CommandBuffer methods may invoke; waitForFences
records the nanosecond timeout it was given. -/
inductive VkCall where
  | beginCommandBuffer
  | endCommandBuffer
  | resetFences
  | queueSubmit
  | waitForFences (timeout_ns : Nat)
  | resetCommandBuffer
deriving DecidableEq, Repr

/-- Outcomes the environment (driver) reports for each Vulkan entry point a
CommandBuffer method calls through the dispatch table. -/
structure VkEnv where
  beginCommandBuffer : VkResult
  endCommandBuffer : VkResult
  resetFences : VkResult
  queueSubmit : VkResult
  waitForFences : VkResult
  resetCommandBuffer : VkResult
deriving DecidableEq, Repr

/-- Result, next state and issued Vulkan calls of one CommandBuffer method
invocation. -/
structure StepOut where
  result : Result
  state : CommandBufferState
  calls : List VkCall
deriving DecidableEq, Repr

/-- CommandBuffer::BeginIfNotInRecording (command.cc): a no-op success when
already recording; an invalid-state failure when not in the initial state;
otherwise vkBeginCommandBuffer is called and on success the state becomes
recording. -/
def BeginIfNotInRecording (env : VkEnv) (state : CommandBufferState) : StepOut :=
  if state = .kRecording then { result := {}, state := state, calls := [] }
  else if state != .kInitial then
    { result := Result.fail "Vulkan::Begin CommandBuffer from Not Valid State",
      state := state, calls := [] }
  else if env.beginCommandBuffer != .success then
    { result := Result.fail "Vulkan::Calling vkBeginCommandBuffer Fail",
      state := state, calls := [.beginCommandBuffer] }
  else { result := {}, state := .kRecording, calls := [.beginCommandBuffer] }

/-- CommandBuffer::SubmitAndReset (command.cc): valid only from the
executable state; resets the fence, submits to the queue, waits on the
fence for timeout_ms converted to nanoseconds, and on a timely signal
resets the command buffer and returns to the initial state. Any failure
returns immediately with the state unchanged. -/
def SubmitAndReset (env : VkEnv) (timeout_ms : Nat) (state : CommandBufferState) :
    StepOut :=
  if state != .kExecutable then
    { result := Result.fail "Vulkan::Submit CommandBuffer from Not Valid State",
      state := state, calls := [] }
  else if env.resetFences != .success then
    { result := Result.fail "Vulkan::Calling vkResetFences Fail",
      state := state, calls := [.resetFences] }
  else if env.queueSubmit != .success then
    { result := Result.fail "Vulkan::Calling vkQueueSubmit Fail",
      state := state, calls := [.resetFences, .queueSubmit] }
  else
    let ns := timeout_ms * 1000 * 1000
    if env.waitForFences = .timeout then
      { result := Result.fail "Vulkan::Calling vkWaitForFences Timeout",
        state := state, calls := [.resetFences, .queueSubmit, .waitForFences ns] }
    else if env.waitForFences != .success then
      { result := Result.fail "Vulkan::Calling vkWaitForFences Fail",
        state := state, calls := [.resetFences, .queueSubmit, .waitForFences ns] }
    else if env.resetCommandBuffer != .success then
      { result := Result.fail "Vulkan::Calling vkResetCommandBuffer Fail",
        state := state,
        calls := [.resetFences, .queueSubmit, .waitForFences ns, .resetCommandBuffer] }
    else
      { result := {}, state := .kInitial,
        calls := [.resetFences, .queueSubmit, .waitForFences ns, .resetCommandBuffer] }

/-- Destruction and release calls the Shutdown methods of command.cc and
device.cc may issue, each carrying the handle it acts on (none models
VK_NULL_HANDLE where the source can hold a null handle). -/
inductive DestroyCall where
  | destroyCommandPool (pool : Nat)
  | destroyFence (fence : Nat)
  | freeCommandBuffers (command : Nat)
  | destroyDevice (device : Option Nat)
  | destroyDebugReportCallback (inst callback : Option Nat)
  | destroyInstance (inst : Option Nat)
deriving DecidableEq, Repr

/-- CommandPool handle state. Modelled from the spec: command.h (not under
src/) default-initializes pool_ to VK_NULL_HANDLE, per the never-initialized
no-op wording; none models VK_NULL_HANDLE. -/
structure CommandPoolState where
  pool : Option Nat := none
deriving DecidableEq, Repr

/-- CommandPool::Shutdown (command.cc): destroy the pool when the handle is
not null. The source never clears pool_, so the stored handle is unchanged. -/
def CommandPoolShutdown (s : CommandPoolState) : CommandPoolState × List DestroyCall :=
  match s.pool with
  | none => (s, [])
  | some h => (s, [.destroyCommandPool h])

/-- CommandBuffer handle state. Modelled from the spec: command.h (not under
src/) default-initializes command_ and fence_ to VK_NULL_HANDLE, per the
never-initialized no-op wording; none models VK_NULL_HANDLE. -/
structure CommandBufferRes where
  command : Option Nat := none
  fence : Option Nat := none
deriving DecidableEq, Repr

/-- CommandBuffer::Shutdown (command.cc): destroy the fence when not null,
then free the command buffer when not null. The source never clears either
handle, so both are unchanged. -/
def CommandBufferShutdown (s : CommandBufferRes) : CommandBufferRes × List DestroyCall :=
  let fenceCalls : List DestroyCall :=
    match s.fence with
    | none => []
    | some h => [.destroyFence h]
  let commandCalls : List DestroyCall :=
    match s.command with
    | none => []
    | some h => [.freeCommandBuffers h]
  (s, fenceCalls ++ commandCalls)

/-- The Device members relevant to ownership and Shutdown (device.h):
handles default to VK_NULL_HANDLE (none) and destroy_device_ defaults to
true, as in the in-class initializers. -/
structure Device where
  inst : Option Nat := none
  callback : Option Nat := none
  physical_device : Option Nat := none
  available_features : VkPhysicalDeviceFeatures := {}
  available_extensions : List String := []
  queue_family_index : Nat := 0
  device : Option Nat := none
  queue : Option Nat := none
  destroy_device : Bool := true
deriving DecidableEq, Repr

/-- The adopting Device constructor (device.cc): stores the handed-in
instance, physical device, available features and extensions, queue-family
index, logical device and queue, and fixes destroy_device_ to false. -/
def Device.adopt (inst physical_device : Nat)
    (available_features : VkPhysicalDeviceFeatures)
    (available_extensions : List String) (queue_family_index : Nat)
    (device queue : Nat) : Device :=
  { inst := some inst, physical_device := some physical_device,
    available_features := available_features,
    available_extensions := available_extensions,
    queue_family_index := queue_family_index,
    device := some device, queue := some queue,
    destroy_device := false }

/-- Device::Shutdown (device.cc): when the device owns its handles it
destroys the logical device, the debug-report callback and the instance, in
that order; otherwise it does nothing. -/
def Device.Shutdown (d : Device) : List DestroyCall :=
  if d.destroy_device then
    [.destroyDevice d.device,
     .destroyDebugReportCallback d.inst d.callback,
     .destroyInstance d.inst]
  else []

section Lemmas

/-- The empty-list guard of AreAllRequiredFeaturesSupported is redundant:
the function is the conjunction of the per-feature checks. -/
lemma areAll_eq_all (a : VkPhysicalDeviceFeatures) (req : List Feature) :
    AreAllRequiredFeaturesSupported a req = req.all (featureSupported a) := by
  cases req <;> simp [AreAllRequiredFeaturesSupported]

set_option maxHeartbeats 1000000 in
/-- Reading a feature after enabling one: the read is true iff the features
coincide or it was already true (for the four field-less features both sides
are true). -/
lemma featureSupported_setFeature (r : VkPhysicalDeviceFeatures) (f g : Feature) :
    featureSupported (setFeature r g) f = ((f == g) || featureSupported r f) := by
  cases f <;> cases g <;> rfl

/-- Reading a feature after enabling a whole list. -/
lemma featureSupported_foldl (req : List Feature) (r : VkPhysicalDeviceFeatures)
    (f : Feature) :
    featureSupported (req.foldl setFeature r) f =
      (req.any (fun g => f == g) || featureSupported r f) := by
  induction req generalizing r with
  | nil => simp
  | cons g t ih =>
    simp only [List.foldl_cons, List.any_cons]
    rw [ih, featureSupported_setFeature]
    cases f == g <;> cases t.any (fun g => f == g) <;> cases featureSupported r f <;> rfl

/-- In the zero-initialized feature struct every field-backed feature reads
false. -/
lemma featureSupported_empty (f : Feature) (hf : isSpecialFeature f = false) :
    featureSupported {} f = false := by
  revert hf; cases f <;> decide

end Lemmas

/-- C1: AreAllRequiredFeaturesSupported returns true on an empty required
list regardless of the available set, otherwise true iff every required
feature is enabled in the available set; the result depends only on which
features are in the required list, so it is order-independent and unchanged
by duplicates. -/
theorem features_check_spec (a : VkPhysicalDeviceFeatures) (req : List Feature) :
    (req = [] → AreAllRequiredFeaturesSupported a req = true) ∧
    (AreAllRequiredFeaturesSupported a req = true ↔
      ∀ f ∈ req, featureSupported a f = true) ∧
    (∀ req' : List Feature, (∀ f, f ∈ req ↔ f ∈ req') →
      AreAllRequiredFeaturesSupported a req = AreAllRequiredFeaturesSupported a req') := by
  refine ⟨fun h => by subst h; rfl, ?_, ?_⟩
  · rw [areAll_eq_all]; exact List.all_eq_true
  · intro req' hmem
    rw [areAll_eq_all, areAll_eq_all, Bool.eq_iff_iff, List.all_eq_true, List.all_eq_true]
    exact ⟨fun h f hf => h f ((hmem f).mpr hf), fun h f hf => h f ((hmem f).mp hf)⟩

/-- Witness for C1 at concrete inputs. -/
theorem features_check_spec_witness :
    AreAllRequiredFeaturesSupported {} [] = true ∧
    AreAllRequiredFeaturesSupported {} [Feature.kLogicOp, Feature.kGeometryShader] =
      AreAllRequiredFeaturesSupported {}
        [Feature.kGeometryShader, Feature.kLogicOp, Feature.kLogicOp] := by
  constructor
  · exact (features_check_spec {} []).1 rfl
  · exact (features_check_spec {} [Feature.kLogicOp, Feature.kGeometryShader]).2.2
      [Feature.kGeometryShader, Feature.kLogicOp, Feature.kLogicOp]
      (by intro f; simp [List.mem_cons]; tauto)

/-- C7: the enabled-feature struct built for vkCreateDevice has a
field-backed feature enabled iff it is in the required list (features not
requested stay disabled, whatever is available, since the build starts from
the zero struct), and the creation request carries exactly the requested
extension list and a single queue at maximum priority 1.0. -/
theorem requested_features_spec (qfi : Nat) (rf : List Feature) (re : List String) :
    (∀ f, isSpecialFeature f = false →
      (featureSupported (RequestedFeatures rf) f = true ↔ f ∈ rf)) ∧
    (CreateDeviceInfo qfi rf re).pEnabledFeatures = RequestedFeatures rf ∧
    (CreateDeviceInfo qfi rf re).ppEnabledExtensionNames = re ∧
    (CreateDeviceInfo qfi rf re).enabledExtensionCount = re.length ∧
    (CreateDeviceInfo qfi rf re).queueCreateInfoCount = 1 ∧
    (CreateDeviceInfo qfi rf re).pQueueCreateInfos =
      [{ queueFamilyIndex := qfi, queueCount := 1, pQueuePriorities := [1] }] := by
  refine ⟨?_, rfl, rfl, rfl, rfl, rfl⟩
  intro f hf
  rw [RequestedFeatures, featureSupported_foldl, featureSupported_empty f hf]
  simp only [Bool.or_false, List.any_eq_true, beq_iff_eq]
  exact ⟨fun ⟨g, hg, e⟩ => e ▸ hg, fun h => ⟨f, h, rfl⟩⟩

/-- Witness for C7 at concrete inputs. -/
theorem requested_features_spec_witness :
    (featureSupported (RequestedFeatures [Feature.kGeometryShader]) Feature.kGeometryShader
        = true) ∧
    ¬ featureSupported (RequestedFeatures [Feature.kGeometryShader]) Feature.kLogicOp
        = true := by
  have h := (requested_features_spec 0 [Feature.kGeometryShader] []).1
  constructor
  · exact (h Feature.kGeometryShader rfl).mpr (List.mem_singleton.mpr rfl)
  · intro hc
    have := (h Feature.kLogicOp rfl).mp hc
    simp at this

section SelectionLemmas

/-- A successful queue-family scan starting at index i found the first
qualifying family. -/
lemma chooseQueueFamilyLoop_some (l : List VkQueueFamilyProperties) :
    ∀ i k, chooseQueueFamilyLoop i l = some k →
      ∃ j, k = i + j ∧ j < l.length ∧
        hasGraphicsOrCompute (l.getD j default) = true ∧
        ∀ m, m < j → hasGraphicsOrCompute (l.getD m default) = false := by
  induction l with
  | nil => intro i k h; simp [chooseQueueFamilyLoop] at h
  | cons p rest ih =>
    intro i k h
    by_cases hp : hasGraphicsOrCompute p = true
    · refine ⟨0, ?_, by simp, by simpa [List.getD_cons_zero] using hp, by omega⟩
      simp [chooseQueueFamilyLoop, hp] at h
      omega
    · simp only [chooseQueueFamilyLoop, hp, if_false] at h
      obtain ⟨j, hk, hj, hq, hmin⟩ := ih (i + 1) k h
      refine ⟨j + 1, by omega, by simpa using Nat.succ_lt_succ hj,
        by simpa [List.getD_cons_succ] using hq, ?_⟩
      intro m hm
      match m with
      | 0 => simpa [List.getD_cons_zero] using hp
      | Nat.succ m' =>
        rw [List.getD_cons_succ]
        exact hmin m' (by omega)

/-- The queue-family scan fails exactly when no family qualifies. -/
lemma chooseQueueFamilyLoop_none (l : List VkQueueFamilyProperties) :
    ∀ i, chooseQueueFamilyLoop i l = none ↔
      ∀ m, m < l.length → hasGraphicsOrCompute (l.getD m default) = false := by
  induction l with
  | nil => intro i; simp [chooseQueueFamilyLoop]
  | cons p rest ih =>
    intro i
    by_cases hp : hasGraphicsOrCompute p = true
    · simp only [chooseQueueFamilyLoop, hp, if_true]
      constructor
      · intro h; cases h
      · intro h
        have := h 0 (by simp)
        rw [List.getD_cons_zero] at this
        rw [hp] at this; cases this
    · simp only [chooseQueueFamilyLoop, hp, Bool.false_eq_true, if_false]
      rw [ih (i + 1)]
      constructor
      · intro h m hm
        match m with
        | 0 => simpa [List.getD_cons_zero] using hp
        | Nat.succ m' =>
          rw [List.getD_cons_succ]
          exact h m' (by simpa using hm)
      · intro h m hm
        have := h (m + 1) (by simpa using Nat.succ_lt_succ hm)
        rwa [List.getD_cons_succ] at this

/-- A successful candidate scan starting at index i0 found the first
candidate passing all three filters, together with its chosen queue-family
index. -/
lemma choosePhysicalDeviceLoop_ok (rf : List Feature) (re : List String)
    (devs : List PhysicalDeviceInfo) :
    ∀ i0 i q, choosePhysicalDeviceLoop rf re i0 devs = .ok (i, q) →
      ∃ j, i = i0 + j ∧ j < devs.length ∧
        devicePasses rf re (devs.getD j default) = true ∧
        (∀ m, m < j → devicePasses rf re (devs.getD m default) = false) ∧
        ChooseQueueFamilyIndex (devs.getD j default).queueFamilies = some q := by
  induction devs with
  | nil => intro i0 i q h; simp [choosePhysicalDeviceLoop] at h
  | cons d rest ih =>
    intro i0 i q h
    by_cases hf : AreAllRequiredFeaturesSupported d.features rf = true
    · by_cases he : AreAllExtensionsSupported d.extensions re = true
      · simp only [choosePhysicalDeviceLoop, hf, he, Bool.not_true, Bool.false_eq_true,
          if_false] at h
        rcases hq : ChooseQueueFamilyIndex d.queueFamilies with _ | q'
        · rw [hq] at h
          obtain ⟨j, hk, hj, hp, hmin, hcq⟩ := ih (i0 + 1) i q h
          refine ⟨j + 1, by omega, by simpa using Nat.succ_lt_succ hj,
            by simpa [List.getD_cons_succ] using hp, ?_,
            by simpa [List.getD_cons_succ] using hcq⟩
          intro m hm
          match m with
          | 0 =>
            rw [List.getD_cons_zero]
            simp [devicePasses, hq]
          | Nat.succ m' =>
            rw [List.getD_cons_succ]
            exact hmin m' (by omega)
        · rw [hq] at h
          injection h with h'
          injection h' with h1 h2
          refine ⟨0, by omega, by simp, ?_, by omega, ?_⟩
          · rw [List.getD_cons_zero]
            simp [devicePasses, hf, he, hq]
          · rw [List.getD_cons_zero, hq, h2]
      · simp only [choosePhysicalDeviceLoop, hf, he, Bool.not_true, Bool.not_false,
          Bool.false_eq_true, if_false, if_true] at h
        obtain ⟨j, hk, hj, hp, hmin, hcq⟩ := ih (i0 + 1) i q h
        refine ⟨j + 1, by omega, by simpa using Nat.succ_lt_succ hj,
          by simpa [List.getD_cons_succ] using hp, ?_,
          by simpa [List.getD_cons_succ] using hcq⟩
        intro m hm
        match m with
        | 0 =>
          rw [List.getD_cons_zero]
          simp [devicePasses, he]
        | Nat.succ m' =>
          rw [List.getD_cons_succ]
          exact hmin m' (by omega)
    · simp only [choosePhysicalDeviceLoop, hf, Bool.not_false, if_true] at h
      obtain ⟨j, hk, hj, hp, hmin, hcq⟩ := ih (i0 + 1) i q h
      refine ⟨j + 1, by omega, by simpa using Nat.succ_lt_succ hj,
        by simpa [List.getD_cons_succ] using hp, ?_,
        by simpa [List.getD_cons_succ] using hcq⟩
      intro m hm
      match m with
      | 0 =>
        rw [List.getD_cons_zero]
        simp [devicePasses, hf]
      | Nat.succ m' =>
        rw [List.getD_cons_succ]
        exact hmin m' (by omega)

/-- The candidate scan returns the no-suitable-device error exactly when
every candidate fails some filter. -/
lemma choosePhysicalDeviceLoop_err (rf : List Feature) (re : List String)
    (devs : List PhysicalDeviceInfo) :
    ∀ i0, choosePhysicalDeviceLoop rf re i0 devs = .error noSuitableDeviceMsg ↔
      ∀ m, m < devs.length → devicePasses rf re (devs.getD m default) = false := by
  induction devs with
  | nil => intro i0; simp [choosePhysicalDeviceLoop]
  | cons d rest ih =>
    intro i0
    by_cases hf : AreAllRequiredFeaturesSupported d.features rf = true
    · by_cases he : AreAllExtensionsSupported d.extensions re = true
      · rcases hq : ChooseQueueFamilyIndex d.queueFamilies with _ | q'
        · simp only [choosePhysicalDeviceLoop, hf, he, hq, Bool.not_true,
            Bool.false_eq_true, if_false]
          rw [ih (i0 + 1)]
          constructor
          · intro h m hm
            match m with
            | 0 =>
              rw [List.getD_cons_zero]
              simp [devicePasses, hq]
            | Nat.succ m' =>
              rw [List.getD_cons_succ]
              exact h m' (by simpa using hm)
          · intro h m hm
            have := h (m + 1) (by simpa using Nat.succ_lt_succ hm)
            rwa [List.getD_cons_succ] at this
        · simp only [choosePhysicalDeviceLoop, hf, he, hq, Bool.not_true,
            Bool.false_eq_true, if_false]
          constructor
          · intro h; cases h
          · intro h
            have := h 0 (by simp)
            rw [List.getD_cons_zero] at this
            simp [devicePasses, hf, he, hq] at this
      · simp only [choosePhysicalDeviceLoop, hf, he, Bool.not_true, Bool.not_false,
          Bool.false_eq_true, if_false, if_true]
        rw [ih (i0 + 1)]
        constructor
        · intro h m hm
          match m with
          | 0 =>
            rw [List.getD_cons_zero]
            simp [devicePasses, he]
          | Nat.succ m' =>
            rw [List.getD_cons_succ]
            exact h m' (by simpa using hm)
        · intro h m hm
          have := h (m + 1) (by simpa using Nat.succ_lt_succ hm)
          rwa [List.getD_cons_succ] at this
    · simp only [choosePhysicalDeviceLoop, hf, Bool.not_false, if_true]
      rw [ih (i0 + 1)]
      constructor
      · intro h m hm
        match m with
        | 0 =>
          rw [List.getD_cons_zero]
          simp [devicePasses, hf]
        | Nat.succ m' =>
          rw [List.getD_cons_succ]
          exact h m' (by simpa using hm)
      · intro h m hm
        have := h (m + 1) (by simpa using Nat.succ_lt_succ hm)
        rwa [List.getD_cons_succ] at this

end SelectionLemmas

/-- C2: a successful ChoosePhysicalDevice returns the lowest-index
enumerated candidate passing the feature check, the extension check and the
graphics-or-compute queue-family check, with the first qualifying family of
that candidate as the chosen queue-family index; when no candidate passes
all three checks it fails with the no-suitable-device error, and that error
occurs only in that case. -/
theorem device_selection_spec (devices : List PhysicalDeviceInfo)
    (rf : List Feature) (re : List String) :
    (∀ i q, ChoosePhysicalDevice devices rf re = .ok (i, q) →
      i < devices.length ∧
      devicePasses rf re (devices.getD i default) = true ∧
      (∀ j, j < i → devicePasses rf re (devices.getD j default) = false) ∧
      ChooseQueueFamilyIndex (devices.getD i default).queueFamilies = some q ∧
      q < (devices.getD i default).queueFamilies.length ∧
      hasGraphicsOrCompute ((devices.getD i default).queueFamilies.getD q default) = true ∧
      (∀ m, m < q →
        hasGraphicsOrCompute ((devices.getD i default).queueFamilies.getD m default)
          = false)) ∧
    (ChoosePhysicalDevice devices rf re = .error noSuitableDeviceMsg ↔
      ∀ j, j < devices.length → devicePasses rf re (devices.getD j default) = false) := by
  constructor
  · intro i q h
    obtain ⟨j, hij, hj, hp, hmin, hcq⟩ :=
      choosePhysicalDeviceLoop_ok rf re devices 0 i q h
    have hji : i = j := by omega
    subst hji
    obtain ⟨j', hq', hj', hqf, hqmin⟩ :=
      chooseQueueFamilyLoop_some (devices.getD i default).queueFamilies 0 q hcq
    have hq'' : q = j' := by omega
    subst hq''
    exact ⟨hj, hp, fun m hm => hmin m hm, hcq, hj', hqf, hqmin⟩
  · exact choosePhysicalDeviceLoop_err rf re devices 0

/-- Witness for C2: of two candidates the second is the first to pass all
checks, and its second queue family is the first advertising
graphics-or-compute support. -/
theorem device_selection_spec_witness :
    1 < ([{ queueFamilies := [] },
          { queueFamilies := [{ queueFlags := 4 }, { queueFlags := 1 }] }] :
            List PhysicalDeviceInfo).length ∧
    devicePasses [] []
      (([{ queueFamilies := [] },
          { queueFamilies := [{ queueFlags := 4 }, { queueFlags := 1 }] }] :
            List PhysicalDeviceInfo).getD 1 default) = true ∧
    ChooseQueueFamilyIndex
      ((([{ queueFamilies := [] },
           { queueFamilies := [{ queueFlags := 4 }, { queueFlags := 1 }] }] :
             List PhysicalDeviceInfo).getD 1 default)).queueFamilies = some 1 := by
  have h := (device_selection_spec
    [{ queueFamilies := [] },
     { queueFamilies := [{ queueFlags := 4 }, { queueFlags := 1 }] }] [] []).1 1 1 rfl
  exact ⟨h.1, h.2.1, h.2.2.2.1⟩

/-- C3: BeginIfNotInRecording is a no-op success from the recording state,
moves the initial state to recording when the underlying begin call
succeeds, fails with the invalid-state error from the executable state
leaving it unchanged, and after any successful call the state is recording
and a subsequent call succeeds again leaving it recording. -/
theorem begin_if_not_in_recording_spec (env : VkEnv) (state : CommandBufferState) :
    (state = .kRecording →
      BeginIfNotInRecording env state =
        { result := {}, state := .kRecording, calls := [] }) ∧
    (env.beginCommandBuffer = .success → state = .kInitial →
      BeginIfNotInRecording env state =
        { result := {}, state := .kRecording, calls := [.beginCommandBuffer] }) ∧
    (state = .kExecutable →
      (BeginIfNotInRecording env state).result =
          Result.fail "Vulkan::Begin CommandBuffer from Not Valid State" ∧
      (BeginIfNotInRecording env state).state = .kExecutable) ∧
    ((BeginIfNotInRecording env state).result.IsSuccess = true →
      (BeginIfNotInRecording env state).state = .kRecording ∧
      (BeginIfNotInRecording env (BeginIfNotInRecording env state).state).result.IsSuccess
        = true ∧
      (BeginIfNotInRecording env (BeginIfNotInRecording env state).state).state
        = .kRecording) := by
  cases state <;>
    rcases hb : env.beginCommandBuffer with _ | _ | _ <;>
      simp [BeginIfNotInRecording, hb, Result.IsSuccess, Result.fail]

/-- Witness for C3: with a succeeding driver, a call from the initial state
and a repeated call both succeed and end in the recording state. -/
theorem begin_if_not_in_recording_spec_witness :
    BeginIfNotInRecording ⟨.success, .success, .success, .success, .success, .success⟩
        CommandBufferState.kInitial =
      { result := {}, state := .kRecording, calls := [.beginCommandBuffer] } ∧
    BeginIfNotInRecording ⟨.success, .success, .success, .success, .success, .success⟩
        CommandBufferState.kRecording =
      { result := {}, state := .kRecording, calls := [] } := by
  constructor
  · exact (begin_if_not_in_recording_spec
      ⟨.success, .success, .success, .success, .success, .success⟩ .kInitial).2.1 rfl rfl
  · exact (begin_if_not_in_recording_spec
      ⟨.success, .success, .success, .success, .success, .success⟩ .kRecording).1 rfl

/-- C4: when SubmitAndReset runs from the executable state and the fence
wait times out, it fails with the timeout error, the state stays
executable, and the command buffer is never reset. -/
theorem submit_timeout_spec (env : VkEnv) (timeout_ms : Nat)
    (h1 : env.resetFences = .success) (h2 : env.queueSubmit = .success)
    (h3 : env.waitForFences = .timeout) :
    SubmitAndReset env timeout_ms .kExecutable =
      { result := Result.fail "Vulkan::Calling vkWaitForFences Timeout",
        state := .kExecutable,
        calls := [.resetFences, .queueSubmit,
                  .waitForFences (timeout_ms * 1000 * 1000)] } ∧
    VkCall.resetCommandBuffer ∉ (SubmitAndReset env timeout_ms .kExecutable).calls := by
  constructor <;> simp [SubmitAndReset, h1, h2, h3]

/-- Witness for C4 at a concrete environment and timeout. -/
theorem submit_timeout_spec_witness :
    SubmitAndReset ⟨.success, .success, .success, .success, .timeout, .success⟩ 1
        CommandBufferState.kExecutable =
      { result := Result.fail "Vulkan::Calling vkWaitForFences Timeout",
        state := .kExecutable,
        calls := [.resetFences, .queueSubmit, .waitForFences 1000000] } ∧
    VkCall.resetCommandBuffer ∉
      (SubmitAndReset ⟨.success, .success, .success, .success, .timeout, .success⟩ 1
        CommandBufferState.kExecutable).calls :=
  submit_timeout_spec ⟨.success, .success, .success, .success, .timeout, .success⟩ 1
    rfl rfl rfl

/-- C5: on the success path from the executable state, SubmitAndReset
resets the fence, submits to the queue, waits on the fence with timeout_ms
converted to nanoseconds, then resets the command buffer, ends in the
initial state, and returns success; the calls list records that order. -/
theorem submit_success_spec (env : VkEnv) (timeout_ms : Nat)
    (h1 : env.resetFences = .success) (h2 : env.queueSubmit = .success)
    (h3 : env.waitForFences = .success) (h4 : env.resetCommandBuffer = .success) :
    SubmitAndReset env timeout_ms .kExecutable =
      { result := {}, state := .kInitial,
        calls := [.resetFences, .queueSubmit,
                  .waitForFences (timeout_ms * 1000 * 1000), .resetCommandBuffer] } := by
  simp [SubmitAndReset, h1, h2, h3, h4]

/-- Witness for C5 at a concrete environment and timeout. -/
theorem submit_success_spec_witness :
    SubmitAndReset ⟨.success, .success, .success, .success, .success, .success⟩ 1000
        CommandBufferState.kExecutable =
      { result := {}, state := .kInitial,
        calls := [.resetFences, .queueSubmit, .waitForFences 1000000000,
                  .resetCommandBuffer] } :=
  submit_success_spec ⟨.success, .success, .success, .success, .success, .success⟩ 1000
    rfl rfl rfl rfl

/-- C6: SubmitAndReset called from the initial or recording state fails
with the invalid-state error, issues no Vulkan call (so no fence reset and
no submission), and leaves the state unchanged. -/
theorem submit_invalid_state_spec (env : VkEnv) (timeout_ms : Nat)
    (state : CommandBufferState)
    (h : state = .kInitial ∨ state = .kRecording) :
    SubmitAndReset env timeout_ms state =
      { result := Result.fail "Vulkan::Submit CommandBuffer from Not Valid State",
        state := state, calls := [] } := by
  rcases h with h | h <;> subst h <;> rfl

/-- Witness for C6 at a concrete environment, timeout and state. -/
theorem submit_invalid_state_spec_witness :
    SubmitAndReset ⟨.success, .success, .success, .success, .success, .success⟩ 5
        CommandBufferState.kRecording =
      { result := Result.fail "Vulkan::Submit CommandBuffer from Not Valid State",
        state := .kRecording, calls := [] } :=
  submit_invalid_state_spec ⟨.success, .success, .success, .success, .success, .success⟩
    5 .kRecording (Or.inr rfl)

/-- C9 counterexample: after a first Shutdown of a pool holding handle 1,
a second Shutdown issues vkDestroyCommandPool on handle 1 again (the source
never clears pool_), so the second call is not a no-op and the handle is
destroyed twice across the two calls. -/
theorem shutdown_idempotent_counterexample :
    (CommandPoolShutdown { pool := some 1 }).2 = [DestroyCall.destroyCommandPool 1] ∧
    (CommandPoolShutdown (CommandPoolShutdown { pool := some 1 }).1).2 =
      [DestroyCall.destroyCommandPool 1] ∧
    (CommandBufferShutdown { command := some 2, fence := some 3 }).2 =
      [DestroyCall.destroyFence 3, DestroyCall.freeCommandBuffers 2] ∧
    (CommandBufferShutdown
        (CommandBufferShutdown { command := some 2, fence := some 3 }).1).2 =
      [DestroyCall.destroyFence 3, DestroyCall.freeCommandBuffers 2] :=
  ⟨rfl, rfl, rfl, rfl⟩

/-- C9 as amended: both Shutdown methods are no-ops on a never-initialized
instance (null handles) and never change the stored handles, so a second
call issues exactly the same destroy and free calls as the first; repeated
Shutdown is a no-op only while the handles are null. -/
theorem shutdown_repeat_spec (cp : CommandPoolState) (cb : CommandBufferRes) :
    (cp.pool = none → CommandPoolShutdown cp = (cp, [])) ∧
    (CommandPoolShutdown cp).1 = cp ∧
    (CommandPoolShutdown (CommandPoolShutdown cp).1).2 = (CommandPoolShutdown cp).2 ∧
    (cb.command = none → cb.fence = none → CommandBufferShutdown cb = (cb, [])) ∧
    (CommandBufferShutdown cb).1 = cb ∧
    (CommandBufferShutdown (CommandBufferShutdown cb).1).2 =
      (CommandBufferShutdown cb).2 := by
  obtain ⟨pool⟩ := cp
  obtain ⟨command, fence⟩ := cb
  cases pool <;> cases command <;> cases fence <;>
    simp [CommandPoolShutdown, CommandBufferShutdown]

/-- Witness for the amended C9 at never-initialized instances. -/
theorem shutdown_repeat_spec_witness :
    CommandPoolShutdown {} = ({}, []) ∧ CommandBufferShutdown {} = ({}, []) := by
  have h := shutdown_repeat_spec {} {}
  exact ⟨h.1 rfl, h.2.2.2.1 rfl rfl⟩

/-- C10: the adopting Device constructor fixes the ownership flag to
non-owning, and Shutdown of such a device issues no destroy call at all:
the borrowed instance, logical device and callback handles are untouched. -/
theorem adopted_device_spec (inst physical_device : Nat)
    (available_features : VkPhysicalDeviceFeatures)
    (available_extensions : List String) (queue_family_index : Nat)
    (device queue : Nat) :
    (Device.adopt inst physical_device available_features available_extensions
        queue_family_index device queue).destroy_device = false ∧
    Device.Shutdown (Device.adopt inst physical_device available_features
        available_extensions queue_family_index device queue) = [] :=
  ⟨rfl, rfl⟩

/-- C8: the validation-layer check succeeds iff every required layer is in
the available-layer list; the missing-layer set contains exactly the
required layers absent from the available list; and on failure the error
message is built from that whole set, so it lists every absent layer. -/
theorem validation_layers_spec (required_layers available_layers : List String) :
    ((AreAllValidationLayersSupported required_layers available_layers).IsSuccess = true ↔
      ∀ l ∈ required_layers, l ∈ available_layers) ∧
    (∀ l, l ∈ missingLayers required_layers available_layers ↔
      l ∈ required_layers ∧ l ∉ available_layers) ∧
    ((AreAllValidationLayersSupported required_layers available_layers).IsSuccess
        = false →
      (AreAllValidationLayersSupported required_layers available_layers).err =
        some (missingLayersMsg (missingLayers required_layers available_layers))) := by
  have hmem : ∀ l, l ∈ missingLayers required_layers available_layers ↔
      l ∈ required_layers ∧ l ∉ available_layers := by
    intro l
    simp [missingLayers, List.mem_dedup, List.mem_filter]
  refine ⟨?_, hmem, ?_⟩
  · by_cases he : (missingLayers required_layers available_layers).isEmpty = true
    · rw [List.isEmpty_iff] at he
      simp only [AreAllValidationLayersSupported, he]
      simp only [List.isEmpty_nil, if_true]
      constructor
      · intro _ l hl
        by_contra hab
        have := (hmem l).mpr ⟨hl, hab⟩
        rw [he] at this
        cases this
      · intro _; rfl
    · simp only [AreAllValidationLayersSupported, he, if_false]
      constructor
      · intro hc; cases hc
      · intro hall
        exfalso
        apply he
        rw [List.isEmpty_iff, List.eq_nil_iff_forall_not_mem]
        intro l hl
        obtain ⟨h1, h2⟩ := (hmem l).mp hl
        exact h2 (hall l h1)
  · by_cases he : (missingLayers required_layers available_layers).isEmpty = true
    · simp [AreAllValidationLayersSupported, he, Result.IsSuccess]
    · simp [AreAllValidationLayersSupported, he, Result.fail]

/-- Witness for C8: with one required layer and no available layers the
check fails, the layer is reported missing, and the message carries the
whole missing set. -/
theorem validation_layers_spec_witness :
    ("VK_LAYER_LUNARG_standard_validation" ∈
      missingLayers kRequiredValidationLayers [] ) ∧
    (AreAllValidationLayersSupported kRequiredValidationLayers []).err =
      some (missingLayersMsg (missingLayers kRequiredValidationLayers [])) := by
  have h := validation_layers_spec kRequiredValidationLayers []
  constructor
  · exact (h.2.1 "VK_LAYER_LUNARG_standard_validation").mpr
      ⟨by simp [kRequiredValidationLayers], by simp⟩
  · exact h.2.2 rfl

end Amber
